import Mathlib

/-!
Verification of SmartBlueprint Pro's signal-processing and predictive-analytics
core against its natural-language specification.

The embedding follows the Python sources:
  * `predictive_analytics_engine.py` — feature-based health scoring, risk
    bucketing and failure-date projection (rationals stand in for floats;
    all arithmetic in those functions is exact on rationals);
  * `advanced_signal_processing.py` — Kalman/EWMA smoothing, statistical
    anomaly scoring, RSSI→distance conversion, triangulation guards,
    position confidence, and spatial anomaly regions (real numbers where
    the source computes square roots or powers).

A Python feature dict is embedded as an association list `List (String × ℚ)`
(dicts have unique keys; lookup takes the first binding).
-/

/-- A feature map: the Python `Dict[str, float]` of extracted device features. -/
abbrev Features := List (String × ℚ)

/-- Dict lookup: `features[k]` / `k in features` (first binding wins, as in a
dict, whose keys are unique). -/
def getFeature : Features → String → Option ℚ
  | [], _ => none
  | kv :: rest, k => if kv.1 == k then some kv.2 else getFeature rest k

/-- `calculate_health_score` (predictive_analytics_engine.py, lines 183–233):
start at 100, apply signal/response deductions, multiply by `uptime_ratio`,
apply disconnect/error/temperature/power deductions, clamp to [0,100].
The `rssi_std` test is nested inside the `rssi_mean` presence check, and the
`response_time_trend` test inside the `response_time_mean` check, exactly as
in the source. -/
def calculate_health_score (features : Features) : ℚ :=
  let score : ℚ := 100
  let score :=
    match getFeature features "rssi_mean" with
    | some rssi =>
        let score := if rssi < -70 then score - 20
                     else if rssi < -60 then score - 10 else score
        match getFeature features "rssi_std" with
        | some sd => if sd > 10 then score - 15 else score
        | none => score
    | none => score
  let score :=
    match getFeature features "response_time_mean" with
    | some rt =>
        let score := if rt > 1000 then score - 25
                     else if rt > 500 then score - 15 else score
        match getFeature features "response_time_trend" with
        | some t => if t > 0 then score - 10 else score
        | none => score
    | none => score
  let score :=
    match getFeature features "uptime_ratio" with
    | some uptime => score * uptime
    | none => score
  let score :=
    match getFeature features "disconnect_events" with
    | some d => score - min (d * 5) 30
    | none => score
  let score :=
    match getFeature features "error_rate" with
    | some e => score - min (e * 100) 40
    | none => score
  let score :=
    match getFeature features "temp_max" with
    | some t => if t > 85 then score - 20 else score
    | none => score
  let score :=
    match getFeature features "power_trend" with
    | some p => if p > 0 then score - 10 else score
    | none => score
  max 0 (min 100 score)

/-- `determine_risk_level` (predictive_analytics_engine.py, lines 235–244). -/
def determine_risk_level (health_score : ℚ) : String :=
  if health_score ≥ 80 then "low"
  else if health_score ≥ 60 then "medium"
  else if health_score ≥ 30 then "high"
  else "critical"

/-- C1: the health score always lies in [0,100], and `determine_risk_level`
buckets the returned score exactly as specified: ≥80 low, ≥60 medium,
≥30 high, else critical. -/
theorem health_score_range_and_risk_buckets (features : Features) :
    0 ≤ calculate_health_score features ∧ calculate_health_score features ≤ 100 ∧
    (determine_risk_level (calculate_health_score features) = "low" ↔
      80 ≤ calculate_health_score features) ∧
    (determine_risk_level (calculate_health_score features) = "medium" ↔
      60 ≤ calculate_health_score features ∧ calculate_health_score features < 80) ∧
    (determine_risk_level (calculate_health_score features) = "high" ↔
      30 ≤ calculate_health_score features ∧ calculate_health_score features < 60) ∧
    (determine_risk_level (calculate_health_score features) = "critical" ↔
      calculate_health_score features < 30) := by
  set s := calculate_health_score features with hs
  have h0 : 0 ≤ s := by
    rw [hs]; unfold calculate_health_score; exact le_max_left 0 _
  have h100 : s ≤ 100 := by
    rw [hs]; unfold calculate_health_score
    exact max_le (by norm_num) (min_le_left 100 _)
  refine ⟨h0, h100, ?_, ?_, ?_, ?_⟩ <;>
    · unfold determine_risk_level
      split_ifs with h1 h2 h3 <;>
        simp_all <;> first | linarith | (intro h; linarith)

/-- Does one character list start with another? (helper for substring tests) -/
def startsWithChars : List Char → List Char → Bool
  | [], _ => true
  | _ :: _, [] => false
  | a :: as, b :: bs => a == b && startsWithChars as bs

/-- Does `needle` occur as a contiguous substring of the second list? -/
def containsChars (needle : List Char) : List Char → Bool
  | [] => needle.isEmpty
  | b :: bs => startsWithChars needle (b :: bs) || containsChars needle bs

/-- Python's `'trend' in k` membership test on strings. -/
def containsTrend (k : String) : Bool :=
  containsChars "trend".toList k.toList

/-- `negative_trends` of `predict_failure_date`: the number of features whose
key contains the substring `trend` and whose value is negative
(predictive_analytics_engine.py, lines 258–259). -/
def negTrends (features : Features) : ℕ :=
  List.countP (fun kv => containsTrend kv.1 && decide (kv.2 < 0)) features

/-- `predict_failure_date` (predictive_analytics_engine.py, lines 246–270),
with `failure_threshold = 30` and `prediction_window_days = 30`. The first
component is the predicted failure date as an offset in days from `now`
(the source returns `datetime.now() + timedelta(days=days_to_failure)`);
the second is the confidence. -/
def predict_failure_date (features : Features) : Option ℚ × ℚ :=
  let health_score := calculate_health_score features
  if health_score > 70 then (none, 0)
  else
    let negative_trends := negTrends features
    if negative_trends > 0 then
      let degradation_rate := (100 - health_score) / 30
      let confidence := min (9/10 : ℚ) (1/2 + (negative_trends : ℚ) * (1/10))
      let days_to_failure := max 1 ((health_score - 30) / degradation_rate)
      (some days_to_failure, confidence)
    else (none, 0)

/-- Does the string `k` end with the string `suf`? (suffix test on character
lists) -/
def endsWithStr (k suf : String) : Bool :=
  startsWithChars suf.toList.reverse k.toList.reverse

/-- The number of features whose key ends in `_trend` and whose value is
negative — the count described by the specification's words ("features whose
name ends in `_trend` and value `< 0`"), for comparison with the source's
substring-based `negTrends`. -/
def specNegTrendSuffix (features : Features) : ℕ :=
  List.countP (fun kv => endsWithStr kv.1 "_trend" && decide (kv.2 < 0)) features

/-- C4 counterexample: the feature map `{error_rate: 1/2, trendy: −1}` has
health score 60 ≤ 70 and no negative feature whose name ends in `_trend`,
yet `predict_failure_date` does predict a failure date, because the source
counts any key containing the substring `trend` (here `trendy`). -/
theorem predict_failure_suffix_counterexample :
    calculate_health_score [("error_rate", (1:ℚ)/2), ("trendy", (-1:ℚ))] ≤ 70 ∧
    specNegTrendSuffix [("error_rate", (1:ℚ)/2), ("trendy", (-1:ℚ))] = 0 ∧
    (predict_failure_date [("error_rate", (1:ℚ)/2), ("trendy", (-1:ℚ))]).1 ≠ none := by
  have hs : calculate_health_score [("error_rate", (1:ℚ)/2), ("trendy", (-1:ℚ))] = 60 := by
    simp +decide only [calculate_health_score, getFeature]
    norm_num
  have hn : negTrends [("error_rate", (1:ℚ)/2), ("trendy", (-1:ℚ))] = 1 := by decide
  refine ⟨by rw [hs]; norm_num, by decide, ?_⟩
  simp only [predict_failure_date, hs, hn]
  norm_num
  exact fun h => Option.noConfusion h

/-- C4 (amended: the features counted are those whose name contains `trend`,
not only those ending in `_trend`): with `s` the health score and `neg` the
count of negative `trend` features, `predict_failure_date` returns no date
when `s > 70`, no date when `neg = 0`, and otherwise confidence
`min(0.9, 0.5 + 0.1·neg)` and a failure date `now + max(1, (s−30)/r)` days
where `r = (100−s)/30`. -/
theorem predict_failure_date_spec (features : Features) :
    (calculate_health_score features > 70 →
      predict_failure_date features = (none, 0)) ∧
    (calculate_health_score features ≤ 70 → negTrends features = 0 →
      predict_failure_date features = (none, 0)) ∧
    (calculate_health_score features ≤ 70 → 0 < negTrends features →
      predict_failure_date features =
        (some (max 1 ((calculate_health_score features - 30) /
            ((100 - calculate_health_score features) / 30))),
         min (9/10) (1/2 + (negTrends features : ℚ) * (1/10)))) := by
  unfold predict_failure_date
  refine ⟨fun h => ?_, fun h hn => ?_, fun h hn => ?_⟩
  · simp [h]
  · rw [if_neg (by linarith), hn]; simp
  · rw [if_neg (by linarith), if_pos hn]

/-- Witness for `predict_failure_date_spec` at the concrete feature map
`{error_rate: 1/2, rssi_trend: −1}` (health score 60, one negative trend). -/
theorem predict_failure_date_spec_witness :
    predict_failure_date [("error_rate", (1:ℚ)/2), ("rssi_trend", (-1:ℚ))] =
      (some (45/2), 3/5) := by
  have hs : calculate_health_score [("error_rate", (1:ℚ)/2), ("rssi_trend", (-1:ℚ))] = 60 := by
    simp +decide only [calculate_health_score, getFeature]
    norm_num
  have hn : negTrends [("error_rate", (1:ℚ)/2), ("rssi_trend", (-1:ℚ))] = 1 := by decide
  have h := (predict_failure_date_spec
      [("error_rate", (1:ℚ)/2), ("rssi_trend", (-1:ℚ))]).2.2
      (by rw [hs]; norm_num) (by rw [hn]; norm_num)
  rw [h, hs, hn]
  norm_num [Prod.ext_iff]

/-! ### Health-score rules as reorderable steps (for the order-independence
claim of §4.D). Each deduction of `calculate_health_score` subtracts an
amount that depends only on the feature map, and the uptime rule multiplies
the running score by `uptime_ratio`; the functions below are those amounts,
read off the corresponding branches of the source. -/

/-- Deduction of the weak/fair-RSSI rules: −20 / −10 / 0. -/
def dedRssi (f : Features) : ℚ :=
  match getFeature f "rssi_mean" with
  | some rssi => if rssi < -70 then 20 else if rssi < -60 then 10 else 0
  | none => 0

/-- Deduction of the RSSI-instability rule (tested only when `rssi_mean` is
present, as in the source): −15 / 0. -/
def dedRssiStd (f : Features) : ℚ :=
  match getFeature f "rssi_mean" with
  | some _ =>
    match getFeature f "rssi_std" with
    | some sd => if sd > 10 then 15 else 0
    | none => 0
  | none => 0

/-- Deduction of the slow/degrading-response rules: −25 / −15 / 0. -/
def dedResponse (f : Features) : ℚ :=
  match getFeature f "response_time_mean" with
  | some rt => if rt > 1000 then 25 else if rt > 500 then 15 else 0
  | none => 0

/-- Deduction of the rising-latency-trend rule (tested only when
`response_time_mean` is present): −10 / 0. -/
def dedResponseTrend (f : Features) : ℚ :=
  match getFeature f "response_time_mean" with
  | some _ =>
    match getFeature f "response_time_trend" with
    | some t => if t > 0 then 10 else 0
    | none => 0
  | none => 0

/-- The uptime multiplier: `uptime_ratio` when present, else 1. -/
def uptimeFactor (f : Features) : ℚ :=
  match getFeature f "uptime_ratio" with
  | some uptime => uptime
  | none => 1

/-- Deduction of the disconnect rule: −min(5d, 30). -/
def dedDisconnect (f : Features) : ℚ :=
  match getFeature f "disconnect_events" with
  | some d => min (d * 5) 30
  | none => 0

/-- Deduction of the error-rate rule: −min(100e, 40). -/
def dedError (f : Features) : ℚ :=
  match getFeature f "error_rate" with
  | some e => min (e * 100) 40
  | none => 0

/-- Deduction of the overheating rule: −20 when `temp_max > 85`. -/
def dedTemp (f : Features) : ℚ :=
  match getFeature f "temp_max" with
  | some t => if t > 85 then 20 else 0
  | none => 0

/-- Deduction of the power-drift rule: −10 when `power_trend > 0`. -/
def dedPower (f : Features) : ℚ :=
  match getFeature f "power_trend" with
  | some p => if p > 0 then 10 else 0
  | none => 0

/-- A health-scoring rule: transforms the running score, given the features. -/
abbrev HealthRule := Features → ℚ → ℚ

/-- A deduction rule: subtract a feature-determined amount. -/
def dedStep (d : Features → ℚ) : HealthRule := fun f s => s - d f

/-- The uptime rule: multiply the running score by `uptimeFactor`. -/
def uptimeStep : HealthRule := fun f s => s * uptimeFactor f

/-- The deductions applied before the uptime multiplier, in source order. -/
def preDeds : List (Features → ℚ) := [dedRssi, dedRssiStd, dedResponse, dedResponseTrend]

/-- The deductions applied after the uptime multiplier, in source order. -/
def postDeds : List (Features → ℚ) := [dedDisconnect, dedError, dedTemp, dedPower]

/-- The full rule list of `calculate_health_score`, in source order. -/
def healthRulesCode : List HealthRule :=
  preDeds.map dedStep ++ uptimeStep :: postDeds.map dedStep

/-- Apply a list of health rules starting from 100 and clamp to [0,100]. -/
def applyHealthRules (rules : List HealthRule) (f : Features) : ℚ :=
  max 0 (min 100 (rules.foldl (fun s r => r f s) 100))

/-- The RSSI stage of `calculate_health_score` as a score transformer. -/
def stageRssi (f : Features) (s : ℚ) : ℚ :=
  match getFeature f "rssi_mean" with
  | some rssi =>
      let score := if rssi < -70 then s - 20 else if rssi < -60 then s - 10 else s
      match getFeature f "rssi_std" with
      | some sd => if sd > 10 then score - 15 else score
      | none => score
  | none => s

/-- The response-time stage of `calculate_health_score`. -/
def stageResponse (f : Features) (s : ℚ) : ℚ :=
  match getFeature f "response_time_mean" with
  | some rt =>
      let score := if rt > 1000 then s - 25 else if rt > 500 then s - 15 else s
      match getFeature f "response_time_trend" with
      | some t => if t > 0 then score - 10 else score
      | none => score
  | none => s

/-- The uptime stage of `calculate_health_score`. -/
def stageUptime (f : Features) (s : ℚ) : ℚ :=
  match getFeature f "uptime_ratio" with
  | some uptime => s * uptime
  | none => s

/-- The disconnect stage of `calculate_health_score`. -/
def stageDisconnect (f : Features) (s : ℚ) : ℚ :=
  match getFeature f "disconnect_events" with
  | some d => s - min (d * 5) 30
  | none => s

/-- The error-rate stage of `calculate_health_score`. -/
def stageError (f : Features) (s : ℚ) : ℚ :=
  match getFeature f "error_rate" with
  | some e => s - min (e * 100) 40
  | none => s

/-- The temperature stage of `calculate_health_score`. -/
def stageTemp (f : Features) (s : ℚ) : ℚ :=
  match getFeature f "temp_max" with
  | some t => if t > 85 then s - 20 else s
  | none => s

/-- The power-trend stage of `calculate_health_score`. -/
def stagePower (f : Features) (s : ℚ) : ℚ :=
  match getFeature f "power_trend" with
  | some p => if p > 0 then s - 10 else s
  | none => s

/-- `calculate_health_score` is the clamped composition of its stages
(definitional). -/
theorem chs_stages (f : Features) :
    calculate_health_score f =
      max 0 (min 100 (stagePower f (stageTemp f (stageError f (stageDisconnect f
        (stageUptime f (stageResponse f (stageRssi f 100)))))))) := rfl

theorem stageRssi_eq (f : Features) (s : ℚ) :
    stageRssi f s = s - dedRssi f - dedRssiStd f := by
  unfold stageRssi dedRssi dedRssiStd
  rcases getFeature f "rssi_mean" with _ | rssi <;>
    rcases getFeature f "rssi_std" with _ | sd <;>
    dsimp only <;> (try split_ifs) <;> ring

theorem stageResponse_eq (f : Features) (s : ℚ) :
    stageResponse f s = s - dedResponse f - dedResponseTrend f := by
  unfold stageResponse dedResponse dedResponseTrend
  rcases getFeature f "response_time_mean" with _ | rt <;>
    rcases getFeature f "response_time_trend" with _ | t <;>
    dsimp only <;> (try split_ifs) <;> ring

theorem stageUptime_eq (f : Features) (s : ℚ) :
    stageUptime f s = s * uptimeFactor f := by
  unfold stageUptime uptimeFactor
  rcases getFeature f "uptime_ratio" with _ | u <;> dsimp only <;> ring

theorem stageDisconnect_eq (f : Features) (s : ℚ) :
    stageDisconnect f s = s - dedDisconnect f := by
  unfold stageDisconnect dedDisconnect
  rcases getFeature f "disconnect_events" with _ | d <;> dsimp only <;> ring

theorem stageError_eq (f : Features) (s : ℚ) :
    stageError f s = s - dedError f := by
  unfold stageError dedError
  rcases getFeature f "error_rate" with _ | e <;> dsimp only <;> ring

theorem stageTemp_eq (f : Features) (s : ℚ) :
    stageTemp f s = s - dedTemp f := by
  unfold stageTemp dedTemp
  rcases getFeature f "temp_max" with _ | t <;>
    dsimp only <;> (try split_ifs) <;> ring

theorem stagePower_eq (f : Features) (s : ℚ) :
    stagePower f s = s - dedPower f := by
  unfold stagePower dedPower
  rcases getFeature f "power_trend" with _ | p <;>
    dsimp only <;> (try split_ifs) <;> ring

/-- Closed form of `calculate_health_score`: pre-multiplier deductions come
off 100, the result is scaled by the uptime factor, post-multiplier
deductions come off after, and the result is clamped. -/
theorem chs_closed (f : Features) :
    calculate_health_score f =
      max 0 (min 100
        ((100 - dedRssi f - dedRssiStd f - dedResponse f - dedResponseTrend f) *
            uptimeFactor f
          - dedDisconnect f - dedError f - dedTemp f - dedPower f)) := by
  rw [chs_stages, stagePower_eq, stageTemp_eq, stageError_eq, stageDisconnect_eq,
    stageUptime_eq, stageResponse_eq, stageRssi_eq]

/-- Folding a list of deduction steps subtracts the sum of the deductions. -/
theorem foldl_dedSteps (ds : List (Features → ℚ)) (f : Features) (s : ℚ) :
    (ds.map dedStep).foldl (fun s r => r f s) s = s - (ds.map (fun d => d f)).sum := by
  induction ds generalizing s with
  | nil => simp
  | cons d ds ih =>
      simp only [List.map, List.foldl, dedStep, ih, List.sum_cons]
      ring

/-- Applying any deduction steps around the uptime multiplier yields the
clamped closed form with the corresponding sums. -/
theorem applyHealthRules_group_closed (pre post : List (Features → ℚ)) (f : Features) :
    applyHealthRules (pre.map dedStep ++ uptimeStep :: post.map dedStep) f =
      max 0 (min 100
        ((100 - (pre.map (fun d => d f)).sum) * uptimeFactor f
          - (post.map (fun d => d f)).sum)) := by
  unfold applyHealthRules
  rw [List.foldl_append, foldl_dedSteps]
  simp only [List.foldl, uptimeStep]
  rw [foldl_dedSteps]

/-- The rule decomposition agrees with `calculate_health_score`. -/
theorem applyHealthRules_code_eq (f : Features) :
    applyHealthRules healthRulesCode f = calculate_health_score f := by
  rw [healthRulesCode, applyHealthRules_group_closed, chs_closed]
  simp only [preDeds, postDeds, List.map, List.sum_cons, List.sum_nil]
  ring_nf

/-- C5 counterexample: reordering the §4.D rules CAN change the final clamped
score.  Moving the disconnect deduction before the uptime multiplier is a
permutation of the source's rule list, the source's order reproduces
`calculate_health_score`, yet on `{uptime_ratio: 1/2, disconnect_events: 2}`
the two orders give 45 and 40. -/
theorem health_score_order_counterexample :
    (preDeds.map dedStep ++ dedStep dedDisconnect :: uptimeStep ::
        (postDeds.drop 1).map dedStep).Perm healthRulesCode ∧
    applyHealthRules healthRulesCode
        [("uptime_ratio", (1:ℚ)/2), ("disconnect_events", 2)] =
      calculate_health_score [("uptime_ratio", (1:ℚ)/2), ("disconnect_events", 2)] ∧
    applyHealthRules (preDeds.map dedStep ++ dedStep dedDisconnect :: uptimeStep ::
        (postDeds.drop 1).map dedStep)
        [("uptime_ratio", (1:ℚ)/2), ("disconnect_events", 2)] ≠
      applyHealthRules healthRulesCode
        [("uptime_ratio", (1:ℚ)/2), ("disconnect_events", 2)] := by
  refine ⟨?_, applyHealthRules_code_eq _, ?_⟩
  · rw [healthRulesCode]
    refine List.Perm.append_left _ ?_
    simp only [postDeds, List.map, List.drop]
    exact List.Perm.swap _ _ _
  · have h1 : applyHealthRules healthRulesCode
        [("uptime_ratio", (1:ℚ)/2), ("disconnect_events", 2)] = 40 := by
      simp +decide only [applyHealthRules, healthRulesCode, preDeds, postDeds,
        List.map, List.foldl, List.drop, dedStep, uptimeStep, dedRssi, dedRssiStd,
        dedResponse, dedResponseTrend, uptimeFactor, dedDisconnect, dedError,
        dedTemp, dedPower, getFeature]
      norm_num
    have h2 : applyHealthRules (preDeds.map dedStep ++ dedStep dedDisconnect ::
          uptimeStep :: (postDeds.drop 1).map dedStep)
        [("uptime_ratio", (1:ℚ)/2), ("disconnect_events", 2)] = 45 := by
      simp +decide only [applyHealthRules, preDeds, postDeds,
        List.map, List.foldl, List.drop, List.append_eq, List.cons_append,
        List.nil_append, dedStep, uptimeStep, dedRssi, dedRssiStd,
        dedResponse, dedResponseTrend, uptimeFactor, dedDisconnect, dedError,
        dedTemp, dedPower, getFeature]
      norm_num
    rw [h1, h2]
    norm_num

/-- C5 (amended: the final clamped score is invariant under reordering the
deduction rules within the pre-multiplier group and within the
post-multiplier group; the position of the uptime multiplier relative to the
deductions must stay fixed, since moving it changes the result): any such
reordering of the rules of `calculate_health_score` yields the same final
clamped score. -/
theorem health_score_order_independent (f : Features)
    (pre post : List (Features → ℚ))
    (hpre : pre.Perm preDeds) (hpost : post.Perm postDeds) :
    applyHealthRules (pre.map dedStep ++ uptimeStep :: post.map dedStep) f =
      calculate_health_score f := by
  rw [applyHealthRules_group_closed, chs_closed]
  rw [(hpre.map (fun d => d f)).sum_eq, (hpost.map (fun d => d f)).sum_eq]
  simp only [preDeds, postDeds, List.map, List.sum_cons, List.sum_nil]
  ring_nf

/-- Witness for `health_score_order_independent`: swapping the two RSSI
deductions and the disconnect/error deductions still yields
`calculate_health_score` on a concrete feature map. -/
theorem health_score_order_independent_witness :
    applyHealthRules
        ([dedRssiStd, dedRssi, dedResponse, dedResponseTrend].map dedStep ++
          uptimeStep :: [dedError, dedDisconnect, dedTemp, dedPower].map dedStep)
        [("uptime_ratio", (1:ℚ)/2), ("disconnect_events", 2)] =
      calculate_health_score [("uptime_ratio", (1:ℚ)/2), ("disconnect_events", 2)] :=
  health_score_order_independent _ _ _
    (List.Perm.swap _ _ _) (List.Perm.swap _ _ _)

/-! ### Signal smoothing filters (advanced_signal_processing.py, lines 55–92).
Filter state is explicit; `estimate = none` encodes Python's initial `None`.
The constructor defaults are `process_variance = 1/1000` and
`measurement_variance = 1/10`; rationals make every update exact. -/

/-- The Kalman filter state (`KalmanFilter.__init__`). -/
structure KalmanFilter where
  process_variance : ℚ
  measurement_variance : ℚ
  estimate : Option ℚ
  error_estimate : ℚ

/-- A freshly constructed `KalmanFilter(process_variance, measurement_variance)`:
no estimate yet, error estimate 1. -/
def KalmanFilter.init (q r : ℚ) : KalmanFilter :=
  { process_variance := q, measurement_variance := r
    estimate := none, error_estimate := 1 }

/-- `KalmanFilter.update` (lines 64–78): returns the new estimate and the
updated filter state. -/
def KalmanFilter.update (kf : KalmanFilter) (measurement : ℚ) :
    ℚ × KalmanFilter :=
  match kf.estimate with
  | none => (measurement, { kf with estimate := some measurement })
  | some prediction =>
      let prediction_error := kf.error_estimate + kf.process_variance
      let kalman_gain := prediction_error / (prediction_error + kf.measurement_variance)
      let estimate := prediction + kalman_gain * (measurement - prediction)
      (estimate, { kf with estimate := some estimate
                           error_estimate := (1 - kalman_gain) * prediction_error })

/-- The EWMA filter state (`ExponentialWeightedMovingAverage.__init__`,
default α = 3/10). -/
structure EWMA where
  alpha : ℚ
  value : Option ℚ

/-- A freshly constructed EWMA filter. -/
def EWMA.init (a : ℚ) : EWMA := { alpha := a, value := none }

/-- `ExponentialWeightedMovingAverage.update` (lines 87–92). -/
def EWMA.update (ew : EWMA) (measurement : ℚ) : ℚ × EWMA :=
  match ew.value with
  | none => (measurement, { ew with value := some measurement })
  | some v =>
      let value := ew.alpha * measurement + (1 - ew.alpha) * v
      (value, { ew with value := some value })

/-- C6: the smoothers implement the specified recurrences.  A fresh Kalman
filter takes its first measurement as the estimate with error estimate 1;
a filter holding estimate x̂ with error P updates by P' = P + Q,
K = P'/(P' + R), x̂ ← x̂ + K·(z − x̂), P ← (1 − K)·P'.  A fresh EWMA takes its
first measurement as its value; afterwards y ← α·z + (1 − α)·y.  Both are
pure functions of their state and input. -/
theorem filters_implement_recurrences (q r a z x p v : ℚ) :
    (KalmanFilter.init q r).update z =
      (z, { process_variance := q, measurement_variance := r
            estimate := some z, error_estimate := 1 }) ∧
    (KalmanFilter.update
        { process_variance := q, measurement_variance := r
          estimate := some x, error_estimate := p } z =
      (x + (p + q) / (p + q + r) * (z - x),
       { process_variance := q, measurement_variance := r
         estimate := some (x + (p + q) / (p + q + r) * (z - x))
         error_estimate := (1 - (p + q) / (p + q + r)) * (p + q) })) ∧
    (EWMA.init a).update z = (z, { alpha := a, value := some z }) ∧
    EWMA.update { alpha := a, value := some v } z =
      (a * z + (1 - a) * v, { alpha := a, value := some (a * z + (1 - a) * v) }) := by
  refine ⟨rfl, ?_, rfl, rfl⟩
  simp only [KalmanFilter.update]

/-! ### Statistical anomaly scoring (advanced_signal_processing.py,
lines 267–308).  A device's stored history is the list of RSSI values of its
ring buffer (oldest first); a device absent from `signal_history` is the
empty list, which the length guard also sends to 0.  `np.mean`/`np.std` are
the arithmetic mean and the population standard deviation; the standard
deviation forces real numbers (`Real.sqrt`), so the score lives in ℝ. -/

/-- Arithmetic mean of a rational list (`np.mean`; 0 on the empty list). -/
def meanQ (l : List ℚ) : ℚ := l.sum / l.length

/-- Population variance (`np.var`, ddof = 0). -/
def popVar (l : List ℚ) : ℚ := meanQ (l.map (fun x => (x - meanQ l) ^ 2))

/-- Population standard deviation (`np.std`). -/
noncomputable def stdQ (l : List ℚ) : ℝ := Real.sqrt (popVar l)

/-- `detect_signal_anomaly`: z-score of the new RSSI against the baseline
(all history but the last 10), plus 2 for a sudden >20 dBm drop, plus 1 for
oscillation (recent std > 15), normalised by `min(1, ·/5)`.  Returns 0 when
the history has fewer than 10 entries, when the baseline has fewer than 5,
or when the baseline std is 0. -/
noncomputable def detect_signal_anomaly (history : List ℚ) (rssi : ℚ) : ℝ :=
  if history.length < 10 then 0
  else
    let recent_rssi := history.drop (history.length - 10)
    let historical_rssi := history.take (history.length - 10)
    if historical_rssi.length < 5 then 0
    else
      let hist_mean := meanQ historical_rssi
      let hist_std := stdQ historical_rssi
      if hist_std = 0 then 0
      else
        let current_z_score := |(rssi : ℝ) - (hist_mean : ℝ)| / hist_std
        let anomaly_score := current_z_score
        let anomaly_score :=
          if 2 ≤ recent_rssi.length ∧
              recent_rssi.getD (recent_rssi.length - 2) 0 - rssi > 20
          then anomaly_score + 2 else anomaly_score
        let anomaly_score :=
          if 5 ≤ recent_rssi.length ∧ stdQ recent_rssi > 15
          then anomaly_score + 1 else anomaly_score
        min 1 (anomaly_score / 5)

/-- C2: the anomaly score is always in [0,1], and a history of fewer than 10
measurements scores exactly 0 — so no statistical anomaly event
(score > 0.5) can be produced below 10 samples. -/
theorem anomaly_score_range_and_min_history (history : List ℚ) (rssi : ℚ) :
    (0 ≤ detect_signal_anomaly history rssi ∧
      detect_signal_anomaly history rssi ≤ 1) ∧
    (history.length < 10 → detect_signal_anomaly history rssi = 0) := by
  constructor
  · simp only [detect_signal_anomaly]
    split_ifs with h1 h2 h3 h4 h5 <;> try norm_num
    all_goals {
      have hstd : (0:ℝ) ≤ stdQ (List.take (history.length - 10) history) :=
        Real.sqrt_nonneg _
      have hz : (0:ℝ) ≤
          |(rssi : ℝ) - (meanQ (List.take (history.length - 10) history) : ℝ)| /
            stdQ (List.take (history.length - 10) history) :=
        div_nonneg (abs_nonneg _) hstd
      exact div_nonneg (by linarith) (by norm_num) }
  · intro h
    simp only [detect_signal_anomaly, if_pos h]

/-- Witness for `anomaly_score_range_and_min_history`: the empty history
scores 0. -/
theorem anomaly_score_range_and_min_history_witness :
    detect_signal_anomaly [] 0 = 0 :=
  (anomaly_score_range_and_min_history [] 0).2 (by simp)

/-- C10: with at least 10 but fewer than 15 stored measurements the score is
still exactly 0, because the baseline `history[:-10]` then has fewer than 5
entries. -/
theorem anomaly_score_zero_below_fifteen (history : List ℚ) (rssi : ℚ)
    (h10 : 10 ≤ history.length) (h15 : history.length < 15) :
    detect_signal_anomaly history rssi = 0 := by
  simp only [detect_signal_anomaly]
  rw [if_neg (by omega)]
  have hb : (history.take (history.length - 10)).length < 5 := by
    rw [List.length_take]
    omega
  simp only [if_pos hb]

/-- Witness for `anomaly_score_zero_below_fifteen`: a 12-entry history
scores 0. -/
theorem anomaly_score_zero_below_fifteen_witness :
    detect_signal_anomaly (List.replicate 12 0) 0 = 0 :=
  anomaly_score_zero_below_fifteen _ 0 (by simp) (by simp)

/-! ### RSSI→distance (advanced_signal_processing.py, lines 214–221). -/

/-- `rssi_to_distance`: log-distance path-loss model, clamped to
[1 m, 1000 m]; 1 m when the received power reaches the reference power.
The source's default `path_loss_exponent` is 2. -/
noncomputable def rssi_to_distance (rssi reference_rssi path_loss_exponent : ℚ) : ℝ :=
  if rssi ≥ reference_rssi then 1
  else
    let distance := (10 : ℝ) ^
      (((reference_rssi - rssi) / (10 * path_loss_exponent) : ℚ) : ℝ)
    max 1 (min distance 1000)

/-- C7: `rssi_to_distance` returns 1 when `rssi ≥ reference_rssi`, otherwise
the clamped path-loss distance; the result always lies in [1, 1000]. -/
theorem rssi_to_distance_spec (rssi ref n : ℚ) :
    (rssi ≥ ref → rssi_to_distance rssi ref n = 1) ∧
    (rssi < ref → rssi_to_distance rssi ref n =
      max 1 (min ((10 : ℝ) ^ (((ref - rssi) / (10 * n) : ℚ) : ℝ)) 1000)) ∧
    1 ≤ rssi_to_distance rssi ref n ∧ rssi_to_distance rssi ref n ≤ 1000 := by
  unfold rssi_to_distance
  refine ⟨fun h => if_pos h, fun h => by rw [if_neg (not_le.mpr h)], ?_, ?_⟩
  · split_ifs
    · norm_num
    · exact le_max_left _ _
  · split_ifs
    · norm_num
    · exact max_le (by norm_num) (min_le_right _ _)

/-- Witness for `rssi_to_distance_spec`: equal powers give 1 m, inside
[1, 1000]. -/
theorem rssi_to_distance_spec_witness :
    rssi_to_distance (-30) (-30) 2 = 1 ∧
    1 ≤ rssi_to_distance (-30) (-30) 2 ∧ rssi_to_distance (-30) (-30) 2 ≤ 1000 :=
  ⟨(rssi_to_distance_spec (-30) (-30) 2).1 le_rfl,
   (rssi_to_distance_spec (-30) (-30) 2).2.2⟩

/-! ### Position confidence (advanced_signal_processing.py, lines 249–265).
Coordinates are real pairs; `scipy.spatial.distance.euclidean` is the plane's
Euclidean distance.  The source indexes `distances[i]` in step with
`positions`, which is the zip of the two lists when their lengths agree (the
only way the source is called). -/

/-- Euclidean distance between two points of the plane. -/
noncomputable def euclidean (p q : ℝ × ℝ) : ℝ :=
  Real.sqrt ((p.1 - q.1) ^ 2 + (p.2 - q.2) ^ 2)

/-- Arithmetic mean of a real list (`np.mean`; 0 on the empty list, where
numpy would give NaN). -/
noncomputable def meanR (l : List ℝ) : ℝ := l.sum / l.length

/-- `calculate_position_confidence`: 0 for a missing estimate, otherwise
`max(0, 1 − mean |‖q−p_i‖ − d_i| / 100)`. -/
noncomputable def calculate_position_confidence (positions : List (ℝ × ℝ))
    (distances : List ℝ) (estimated_position : Option (ℝ × ℝ)) : ℝ :=
  match estimated_position with
  | none => 0
  | some q =>
      let errors := (positions.zip distances).map
        (fun pd => |euclidean q pd.1 - pd.2|)
      max 0 (1 - meanR errors / 100)

/-- The mean of the per-anchor residuals is nonnegative. -/
theorem meanR_errors_nonneg (positions : List (ℝ × ℝ)) (distances : List ℝ)
    (q : ℝ × ℝ) :
    0 ≤ meanR ((positions.zip distances).map
      (fun pd => |euclidean q pd.1 - pd.2|)) := by
  unfold meanR
  refine div_nonneg (List.sum_nonneg ?_) (Nat.cast_nonneg _)
  intro x hx
  obtain ⟨pd, _, rfl⟩ := List.mem_map.mp hx
  exact abs_nonneg _

/-- C8: for a non-empty anchor list, the confidence equals
`1 − mean_residual/100` clamped to [0,1], and always lies in [0,1].
(The source writes `max(0, ·)` only; the upper clamp is implied because the
mean residual is nonnegative.) -/
theorem position_confidence_clamped (positions : List (ℝ × ℝ))
    (distances : List ℝ) (q : ℝ × ℝ) (hne : positions ≠ []) :
    calculate_position_confidence positions distances (some q) =
      max 0 (min 1 (1 - meanR ((positions.zip distances).map
        (fun pd => |euclidean q pd.1 - pd.2|)) / 100)) ∧
    0 ≤ calculate_position_confidence positions distances (some q) ∧
    calculate_position_confidence positions distances (some q) ≤ 1 := by
  have hm := meanR_errors_nonneg positions distances q
  simp only [calculate_position_confidence]
  refine ⟨?_, le_max_left _ _, max_le zero_le_one (by linarith)⟩
  rw [min_eq_right (by linarith)]

/-- Witness for `position_confidence_clamped`: one anchor at the estimate
with claimed distance 5 (residual 5, confidence 19/20 after clamping). -/
theorem position_confidence_clamped_witness :
    0 ≤ calculate_position_confidence [((0:ℝ), (0:ℝ))] [(5:ℝ)] (some (0, 0)) ∧
    calculate_position_confidence [((0:ℝ), (0:ℝ))] [(5:ℝ)] (some (0, 0)) ≤ 1 :=
  (position_confidence_clamped [((0:ℝ), (0:ℝ))] [(5:ℝ)] (0, 0)
    (by simp)).2

/-! ### Triangulation (advanced_signal_processing.py, lines 169–212).
The solver step (`solve_triangulation`, a call into scipy's iterative
L-BFGS-B minimiser) is modelled as an abstract parameter: the guard
behaviour under verification holds for every solver.  A device missing
from `signal_history` is the `none` history.  `DevicePosition.device_id`
and the wall-clock timestamp are omitted. -/

/-- A calibrated reference point (`add_reference_point`). -/
structure RefPoint where
  device_id : String
  position : ℝ × ℝ
  rssi_range : ℚ

/-- A triangulated device position (timestamp and device id omitted). -/
structure DevicePosition where
  x : ℝ
  y : ℝ
  confidence : ℝ
  method : String

/-- `triangulate_position`: requires ≥3 reference points, a stored history
and ≥3 of the last 5 measurements; converts the mean recent RSSI to a
distance per anchor (path-loss exponent 2, the default) and hands the solver
the anchor positions and distances. -/
noncomputable def triangulate_position
    (solve_triangulation : List (ℝ × ℝ) → List ℝ → Option (ℝ × ℝ))
    (reference_points : List RefPoint)
    (signal_history : Option (List ℚ)) : Option DevicePosition :=
  if reference_points.length < 3 then none
  else
    match signal_history with
    | none => none
    | some history =>
        let recent_measurements := history.drop (history.length - 5)
        if recent_measurements.length < 3 then none
        else
          let avg_rssi := meanQ recent_measurements
          let distances := reference_points.map
            (fun rp => rssi_to_distance avg_rssi rp.rssi_range 2)
          let positions := reference_points.map (fun rp => rp.position)
          if distances.length < 3 then none
          else
            match solve_triangulation positions distances with
            | some est =>
                some { x := est.1, y := est.2
                       confidence := calculate_position_confidence positions
                         distances (some est)
                       method := "triangulation" }
            | none => none

/-- C3: `triangulate_position` returns no position when fewer than 3 anchors
are registered, when the device has no history, or when fewer than 3 recent
measurements exist; conversely a position is only returned with ≥3 anchors
and ≥3 recent measurements — for every solver. -/
theorem triangulate_position_guards
    (solve : List (ℝ × ℝ) → List ℝ → Option (ℝ × ℝ))
    (refs : List RefPoint) (hist : Option (List ℚ)) :
    (refs.length < 3 → triangulate_position solve refs hist = none) ∧
    (hist = none → triangulate_position solve refs hist = none) ∧
    (∀ h, hist = some h → (h.drop (h.length - 5)).length < 3 →
      triangulate_position solve refs hist = none) ∧
    (∀ p, triangulate_position solve refs hist = some p →
      3 ≤ refs.length ∧
      ∃ h, hist = some h ∧ 3 ≤ (h.drop (h.length - 5)).length) := by
  refine ⟨fun h => by simp only [triangulate_position, if_pos h],
          fun h => by simp only [triangulate_position, h]; split <;> rfl,
          fun h hh hlen => ?_, fun p hp => ?_⟩
  · simp only [triangulate_position, hh]
    split
    · rfl
    · simp only [if_pos hlen]
  · by_cases h3 : refs.length < 3
    · rw [(by simp only [triangulate_position, if_pos h3] :
          triangulate_position solve refs hist = none)] at hp
      exact absurd hp (by simp)
    · refine ⟨by omega, ?_⟩
      rcases hist with _ | h
      · simp only [triangulate_position, if_neg h3] at hp
        exact Option.noConfusion hp
      · refine ⟨h, rfl, ?_⟩
        by_contra hlt
        simp only [triangulate_position, if_neg h3] at hp
        rw [if_pos (by omega)] at hp
        exact Option.noConfusion hp

/-- Witness for `triangulate_position_guards`: with no anchors, no history,
and a solver that always fails, no position is produced. -/
theorem triangulate_position_guards_witness :
    triangulate_position (fun _ _ => none) [] none = none :=
  (triangulate_position_guards (fun _ _ => none) [] none).1 (by simp)

/-! ### Spatial anomaly regions (advanced_signal_processing.py,
lines 339–419).  The DBSCAN clustering step (`sklearn.cluster.DBSCAN`) is
abstracted: `clusters` stands for the non-noise clusters' point lists, and
`anomaly_scores` for the per-device mean anomaly scores computed in the
collection loop, listed in step with `device_positions` (the source builds
`positions` and `anomaly_scores` in one iteration over the same dict).
The per-cluster region construction is the source's, verbatim. -/

/-- A spatial anomaly region (timestamp omitted). -/
structure AnomalyRegion where
  center : ℝ × ℝ
  radius : ℝ
  severity : String
  anomaly_type : String
  confidence : ℝ
  affected_devices : List String

/-- Python's `max(...)` over a list; 0 for the empty list.  It is applied
only to nonempty lists of distances (all nonnegative), where the source's
`max` agrees. -/
noncomputable def listMax (l : List ℝ) : ℝ := l.foldr max 0

/-- The region built from one DBSCAN cluster (lines 387–416): centre is the
cluster's mean point, radius the farthest cluster point from the centre,
confidence the mean anomaly score of positioned devices within the radius,
severity `high` above 0.7 and `medium` otherwise, members every device whose
position is within the radius of the centre. -/
noncomputable def buildRegion (device_positions : List (String × (ℝ × ℝ)))
    (anomaly_scores : List ℝ) (cluster_points : List (ℝ × ℝ)) : AnomalyRegion :=
  let center_x := meanR (cluster_points.map (fun p => p.1))
  let center_y := meanR (cluster_points.map (fun p => p.2))
  let max_distance := listMax (cluster_points.map
    (fun point => euclidean (center_x, center_y) point))
  let affected_devices := (device_positions.filter
    (fun dp => euclidean dp.2 (center_x, center_y) ≤ max_distance)).map
      (fun dp => dp.1)
  let avg_anomaly_score := meanR
    ((((device_positions.map (fun dp => dp.2)).zip anomaly_scores).filter
      (fun pz => euclidean pz.1 (center_x, center_y) ≤ max_distance)).map
        (fun pz => pz.2))
  { center := (center_x, center_y)
    radius := max_distance
    severity := if avg_anomaly_score > 0.7 then "high" else "medium"
    anomaly_type := "signal_degradation"
    confidence := avg_anomaly_score
    affected_devices := affected_devices }

/-- `detect_anomaly_regions`: empty when no device has a position, fewer
than 3 positions exist, or fewer than 2 positions have anomaly score > 0.5;
otherwise one region per cluster of at least 2 points. -/
noncomputable def detect_anomaly_regions
    (device_positions : List (String × (ℝ × ℝ)))
    (anomaly_scores : List ℝ)
    (clusters : List (List (ℝ × ℝ))) : List AnomalyRegion :=
  if device_positions.isEmpty then []
  else
    let positions := device_positions.map (fun dp => dp.2)
    if positions.length < 3 then []
    else
      let high_anomaly_positions := ((positions.zip anomaly_scores).filter
        (fun pz => pz.2 > 0.5)).map (fun pz => pz.1)
      if high_anomaly_positions.length < 2 then []
      else
        clusters.filterMap (fun cluster_points =>
          if 2 ≤ cluster_points.length then
            some (buildRegion device_positions anomaly_scores cluster_points)
          else none)

/-- C9: every region produced by `detect_anomaly_regions` has severity `high`
exactly when its confidence exceeds 0.7 (`medium` otherwise), confidence
equal to the mean anomaly score of the positioned devices within its radius
of its centre, and a member list of exactly the devices whose position is
within that radius of the centre. -/
theorem anomaly_region_fields (device_positions : List (String × (ℝ × ℝ)))
    (anomaly_scores : List ℝ) (clusters : List (List (ℝ × ℝ))) :
    ∀ r ∈ detect_anomaly_regions device_positions anomaly_scores clusters,
      (r.severity = "high" ↔ r.confidence > 0.7) ∧
      (r.severity = "medium" ↔ ¬ r.confidence > 0.7) ∧
      r.confidence = meanR
        ((((device_positions.map (fun dp => dp.2)).zip anomaly_scores).filter
          (fun pz => euclidean pz.1 r.center ≤ r.radius)).map
            (fun pz => pz.2)) ∧
      r.affected_devices = (device_positions.filter
        (fun dp => euclidean dp.2 r.center ≤ r.radius)).map (fun dp => dp.1) := by
  intro r hr
  simp only [detect_anomaly_regions] at hr
  split_ifs at hr with h1 h2 h3 <;> try exact absurd hr (List.not_mem_nil r)
  obtain ⟨cluster_points, _, hc⟩ := List.mem_filterMap.mp hr
  split_ifs at hc
  obtain rfl := Option.some_injective _ hc
  simp only [buildRegion]
  refine ⟨?_, ?_, trivial, trivial⟩
  · split_ifs with h <;> simp [h]
  · split_ifs with h <;> simp [h]

/-- Witness for `anomaly_region_fields`: three co-located devices with score
1 and one two-point cluster at the same spot produce a region whose severity
is `high` exactly when its confidence exceeds 0.7. -/
theorem anomaly_region_fields_witness :
    (buildRegion [("a", ((0:ℝ), (0:ℝ))), ("b", (0, 0)), ("c", (0, 0))]
        [1, 1, 1] [((0:ℝ), (0:ℝ)), (0, 0)]).severity = "high" ↔
      (buildRegion [("a", ((0:ℝ), (0:ℝ))), ("b", (0, 0)), ("c", (0, 0))]
        [1, 1, 1] [((0:ℝ), (0:ℝ)), (0, 0)]).confidence > 0.7 :=
  (anomaly_region_fields
    [("a", ((0:ℝ), (0:ℝ))), ("b", (0, 0)), ("c", (0, 0))] [1, 1, 1]
    [[((0:ℝ), (0:ℝ)), (0, 0)]] _ (by
      simp only [detect_anomaly_regions, List.isEmpty_cons, List.map_cons,
        List.map_nil, List.zip_cons_cons, List.zip_nil_right, List.length_cons,
        List.length_nil, List.filter]
      norm_num)).1
